import Mathlib

set_option maxHeartbeats 1000000

/-- Stable insertion of an element into a sorted list: x is placed before the
first element y with le x y.  Together with isort this models the result of
Python's stable sort under a key comparison (le must be a total preorder). -/
def ins {α : Type} (le : α → α → Bool) (x : α) : List α → List α
  | [] => [x]
  | y :: ys => if le x y then x :: y :: ys else y :: ins le x ys

/-- Stable insertion sort; models Python's sorted(...) / list.sort(key=...). -/
def isort {α : Type} (le : α → α → Bool) : List α → List α
  | [] => []
  | x :: xs => ins le x (isort le xs)

/-- Lexicographic comparison of char lists by code point, as Python compares
strings (a proper initial segment is smaller). -/
def strLtList : List Char → List Char → Bool
  | [], [] => false
  | [], _ :: _ => true
  | _ :: _, [] => false
  | a :: as, b :: bs =>
    if a.toNat < b.toNat then true
    else if b.toNat < a.toNat then false
    else strLtList as bs

/-- Python string comparison s1 < s2 (code-point lexicographic). -/
def strLt (a b : String) : Bool := strLtList a.data b.data

/-- Numeric value of a run of decimal digit characters, as Python int(...) on a
digit string.  Digits are modelled as ASCII 0-9. -/
def digitsVal (cs : List Char) : ℕ := cs.foldl (fun a c => 10 * a + (c.toNat - 48)) 0

/-- Python str.lower() on the characters of an (ASCII) identifier. -/
def lowerChars (cs : List Char) : List Char := cs.map Char.toLower

/-- Python str.startswith: the second list is a prefix of the first. -/
def startsWithL : List Char → List Char → Bool
  | _, [] => true
  | [], _ :: _ => false
  | c :: cs, p :: ps => (c == p) && startsWithL cs ps

/-- Membership of a time t in hour bin h of width W: (h-1)*W < t ≤ h*W, the
selection condition of both aggregation loops of RESULT.py
(time > start_time and time ≤ end_time with start_time = (h-1)*W,
end_time = h*W).  Written in the equivalent integer cross-multiplied form so
that it evaluates on concrete rationals; in_bin_iff below proves it equal to
the source's condition on ℚ. -/
def in_bin (W : ℚ) (h : ℕ) (t : ℚ) : Bool :=
  decide (((h : ℤ) - 1) * W.num * (t.den : ℤ) < t.num * (W.den : ℤ)) &&
    decide (t.num * (W.den : ℤ) ≤ (h : ℤ) * W.num * (t.den : ℤ))

/- ===== Embedding of the first script in src/RESULT.py (lines 1-216),
the plain-Python aggregator writing MH_hourly_firsttime_81.csv and the
ML arrival-rate CSVs. ===== -/

namespace R81

/-- An element of the events list built by the log-reading loop of RESULT.py:
a dict with keys time, type ('C' | 'R' | 'D'), src, dst, id. -/
structure Event where
  time : ℚ
  type : String
  src : Option String
  dst : Option String
  id : Option String
deriving DecidableEq, Repr

/-- is_box from RESULT.py: None-safe, name.lower().startswith("box"). -/
def is_box : Option String → Bool
  | none => false
  | some s => startsWithL (lowerChars s.data) "box".data

/-- is_do from RESULT.py: None-safe, name.lower().startswith("do"). -/
def is_do : Option String → Bool
  | none => false
  | some s => startsWithL (lowerChars s.data) "do".data

/-- is_high_id from RESULT.py: None-safe, mid.lower().startswith("m_h"). -/
def is_high_id : Option String → Bool
  | none => false
  | some s => startsWithL (lowerChars s.data) "m_h".data

/-- is_low_id from RESULT.py: None-safe, mid.lower().startswith("m_l"). -/
def is_low_id : Option String → Bool
  | none => false
  | some s => startsWithL (lowerChars s.data) "m_l".data

/-- sort_key inside natural_sort_ids of RESULT.py: the pair
(non-numeric head, numeric value of the maximal trailing digit run), and
(s, -1) when there is no trailing digit run.  Note: a pair, with no third
original-string component. -/
def sort_key (s : String) : String × ℤ :=
  let cs := s.data
  let num := (cs.reverse.takeWhile (fun c => c.isDigit)).reverse
  if num.length = 0 then (s, -1)
  else (String.mk (cs.take (cs.length - num.length)), (digitsVal num : ℤ))

/-- Python tuple comparison (le) for the pair keys of sort_key. -/
def key_le (a b : String × ℤ) : Bool :=
  strLt a.1 b.1 || (a.1 == b.1 && decide (a.2 ≤ b.2))

/-- natural_sort_ids from RESULT.py: stable sort of the ids by sort_key. -/
def natural_sort_ids (ids : List String) : List String :=
  isort (fun a b => key_le (sort_key a) (sort_key b)) ids

/-- The log-reading loop of RESULT.py on one whitespace-split line (pf models
Python float(...) on the first token; a line whose first token does not parse
is skipped).  Only C lines (≥ 4 fields) and DE lines (≥ 6 fields, status R or
D) produce an event; S and CONN lines and every other shape are skipped. -/
def parse_line (pf : String → Option ℚ) (parts : List String) : Option Event :=
  match parts.head? with
  | none => none
  | some p0 =>
    match pf p0 with
    | none => none
    | some t =>
      if parts.get? 1 = some "C" then
        if 4 ≤ parts.length then
          some ⟨t, "C", parts.get? 2, none, parts.get? 3⟩
        else none
      else if parts.get? 1 = some "DE" then
        if 6 ≤ parts.length then
          if parts.get? 5 = some "R" then
            some ⟨t, "R", parts.get? 2, parts.get? 3, parts.get? 4⟩
          else if parts.get? 5 = some "D" then
            some ⟨t, "D", parts.get? 2, parts.get? 3, parts.get? 4⟩
          else none
        else none
      else none

/-- nodes_all of RESULT.py before exclusion: every non-None src and dst of the
event list, as a set. -/
def nodes_all (events : List Event) : Finset String :=
  (events.filterMap (fun e => e.src) ++ events.filterMap (fun e => e.dst)).toFinset

/-- filtered_nodes of RESULT.py: nodes_all minus box*-named nodes (when eb)
and do*-named nodes (when ed); in the script EXCLUDE_BOX = EXCLUDE_DO = True. -/
def filtered_nodes (eb ed : Bool) (events : List Event) : Finset String :=
  (nodes_all events).filter (fun n => ((eb && is_box (some n)) || (ed && is_do (some n))) = false)

/-- N of RESULT.py: the denominator, computed once from the full event list
with the script's constants EXCLUDE_BOX = EXCLUDE_DO = True. -/
def N (events : List Event) : ℕ := (filtered_nodes true true events).card

/-- rd_events_high of RESULT.py: R or D events with a high-priority id whose
destination is not excluded (box/do, per the flags). -/
def rd_events_high (eb ed : Bool) (events : List Event) : List Event :=
  events.filter (fun e =>
    ((e.type == "R") || (e.type == "D")) && is_high_id e.id &&
      !(eb && is_box e.dst) && !(ed && is_do e.dst))

/-- BIN_SECONDS constant of the first script. -/
def BIN_SECONDS : ℚ := 3600

/-- TOTAL_HOURS constant of the first script. -/
def TOTAL_HOURS : ℕ := 12

/-- The events of one id falling in hour bin h, as selected inside the hourly
loop of RESULT.py. -/
def hour_slice (mid : String) (revs : List Event) (h : ℕ) : List Event :=
  revs.filter (fun e => (e.id == some mid) && in_bin BIN_SECONDS h e.time)

/-- hour_receivers of RESULT.py: the set of destinations receiving id mid in
hour bin h. -/
def hour_receivers (mid : String) (revs : List Event) (h : ℕ) : Finset (Option String) :=
  ((hour_slice mid revs h).map (fun e => e.dst)).toFinset

/-- already_seen_nodes of RESULT.py after processing hour bins 1..h for one id:
empty at the start, and after each bin extended by the first-time receivers of
that bin. -/
def already_seen_nodes (revs : List Event) (mid : String) : ℕ → Finset (Option String)
  | 0 => ∅
  | h + 1 =>
    already_seen_nodes revs mid h ∪
      (hour_receivers mid revs (h + 1)).filter
        (fun n => n ∉ already_seen_nodes revs mid h)

/-- first_time_nodes of RESULT.py for hour bin h: the receivers of the bin not
already seen before the bin. -/
def first_time_nodes (revs : List Event) (mid : String) (h : ℕ) : Finset (Option String) :=
  (hour_receivers mid revs h).filter (fun n => n ∉ already_seen_nodes revs mid (h - 1))

/-- One output row of MH_hourly_firsttime_81.csv.  rate_hour and cum_rate hold
the exact values; the CSV additionally applies Python round() for display. -/
structure HRow where
  Id : String
  hour_index : ℕ
  N : ℕ
  n_hour : ℕ
  rate_hour : ℚ
  cum_rate : ℚ
deriving DecidableEq, Repr

/-- The hourly while-loop of RESULT.py for one id: k remaining bins, current
bin index h, current already-seen set. -/
def highLoop (Nv : ℕ) (revs : List Event) (mid : String) :
    ℕ → ℕ → Finset (Option String) → List HRow
  | 0, _, _ => []
  | k + 1, h, seen =>
    let hr := hour_receivers mid revs h
    let ftn := hr.filter (fun n => n ∉ seen)
    let n_hour := ftn.card
    let rate_hour : ℚ := if 0 < Nv then (n_hour : ℚ) / (Nv : ℚ) * 100 else 0
    let seen2 := seen ∪ ftn
    let cum_rate : ℚ := if 0 < Nv then (seen2.card : ℚ) / (Nv : ℚ) * 100 else 0
    ⟨mid, h, Nv, n_hour, rate_hour, cum_rate⟩ :: highLoop Nv revs mid k (h + 1) seen2

/-- All rows emitted for one id: hours 1..TOTAL_HOURS starting from an empty
already-seen set. -/
def highRowsFor (Nv : ℕ) (revs : List Event) (mid : String) : List HRow :=
  highLoop Nv revs mid TOTAL_HOURS 1 ∅

/-- mh_ids of RESULT.py: the distinct ids of rd_events_high in natural order. -/
def mh_ids (events : List Event) : List String :=
  natural_sort_ids (((rd_events_high true true events).filterMap (fun e => e.id)).dedup)

/-- The full row sequence of MH_hourly_firsttime_81.csv for a run. -/
def highRows (events : List Event) : List HRow :=
  (mh_ids events).flatMap (fun mid => highRowsFor (N events) (rd_events_high true true events) mid)

/-- L_total of RESULT.py: number of C events with a low-priority id. -/
def L_total (events : List Event) : ℕ :=
  (events.filter (fun e => (e.type == "C") && is_low_id e.id)).length

/-- delivered_once_ids of RESULT.py: ids (as stored in the event) with at least
one D event; no destination condition of any kind is applied. -/
def delivered_once_ids (events : List Event) : Finset (Option String) :=
  ((events.filter (fun e => (e.type == "D") && is_low_id e.id)).map (fun e => e.id)).toFinset

/-- P_total of RESULT.py. -/
def P_total (events : List Event) : ℕ := (delivered_once_ids events).card

/-- rate_total of RESULT.py: P/L*100 when L > 0, else the number 0.0 (the
script has no NaN or undefined marking anywhere). -/
def rate_total (events : List Event) : ℚ :=
  if 0 < L_total events then (P_total events : ℚ) / (L_total events : ℚ) * 100 else 0

/-- The single row of ML_arrival_rate_81.csv: (L, P, rate). -/
def low_summary (events : List Event) : ℕ × ℕ × ℚ :=
  (L_total events, P_total events, rate_total events)

end R81

/- ===== Embedding of the second script in src/RESULT.py ("Result Output.py",
lines 218-493), the pandas-based aggregator. ===== -/

namespace R75

/-- One normalized row of the DataFrame built by parse_eventlogreport:
columns Time, Type ('CONN' | 'C' | 'S' | 'DE'), Src, Dst, Id, Status. -/
structure Row where
  time : ℚ
  type : String
  src : Option String
  dst : Option String
  id : Option String
  status : Option String
deriving DecidableEq, Repr

/-- ID_HIGH_RE match (^M_H, case-insensitive) on a possibly-NaN Id. -/
def id_high_match : Option String → Bool
  | none => false
  | some s => startsWithL (lowerChars s.data) "m_h".data

/-- ID_LOW_RE match (^M_L, case-insensitive) on a possibly-NaN Id. -/
def id_low_match : Option String → Bool
  | none => false
  | some s => startsWithL (lowerChars s.data) "m_l".data

/-- BOX_RE match: ^box\d+$, case-insensitive. -/
def box_re (s : String) : Bool :=
  let cs := lowerChars s.data
  startsWithL cs "box".data && decide (0 < (cs.drop 3).length) &&
    (cs.drop 3).all (fun c => c.isDigit)

/-- BOX_RE match applied after astype(str); NaN renders as "nan", not a box. -/
def box_reO : Option String → Bool
  | none => false
  | some s => box_re s

/-- natural_key of the pandas script: the triple
(head before the maximal trailing digit run, its numeric value, original id),
with numeric value -1 and head = id when there is no trailing digit run. -/
def natural_key (mid : String) : String × ℤ × String :=
  let cs := mid.data
  let num := (cs.reverse.takeWhile (fun c => c.isDigit)).reverse
  if num.length = 0 then (mid, -1, mid)
  else (String.mk (cs.take (cs.length - num.length)), ((digitsVal num : ℤ), mid))

/-- Python tuple comparison (le) for the triple keys of natural_key. -/
def natural_key_le (a b : String × ℤ × String) : Bool :=
  strLt a.1 b.1 ||
    (a.1 == b.1 &&
      (decide (a.2.1 < b.2.1) ||
        (a.2.1 == b.2.1 && (strLt a.2.2 b.2.2 || a.2.2 == b.2.2))))

/-- sorted(ids, key=natural_key) of the pandas script. -/
def sort_ids_by_natural_key (ids : List String) : List String :=
  isort (fun a b => natural_key_le (natural_key a) (natural_key b)) ids

/-- parse_eventlogreport of the pandas script on one whitespace-split line
(pf models Python float(...) on the first token).  CONN (≥ 5 fields),
C (≥ 4), S (≥ 5) and DE (≥ 6, any status) lines are kept; others skipped. -/
def parse_line (pf : String → Option ℚ) (parts : List String) : Option Row :=
  match parts.head? with
  | none => none
  | some p0 =>
    match pf p0 with
    | none => none
    | some t =>
      if parts.get? 1 = some "CONN" then
        if 5 ≤ parts.length then
          some ⟨t, "CONN", parts.get? 2, parts.get? 3, none, parts.get? 4⟩
        else none
      else if parts.get? 1 = some "C" then
        if 4 ≤ parts.length then
          some ⟨t, "C", parts.get? 2, none, parts.get? 3, none⟩
        else none
      else if parts.get? 1 = some "S" then
        if 5 ≤ parts.length then
          some ⟨t, "S", parts.get? 2, parts.get? 3, parts.get? 4, none⟩
        else none
      else if parts.get? 1 = some "DE" then
        if 6 ≤ parts.length then
          some ⟨t, "DE", parts.get? 2, parts.get? 3, parts.get? 4, parts.get? 5⟩
        else none
      else none

/-- compute_denominator_nodes: distinct non-NaN Src/Dst values, the empty
string discarded, box\d+ names removed when exclude_box. -/
def compute_denominator_nodes (exclude_box : Bool) (df : List Row) : Finset String :=
  (((df.filterMap (fun r => r.src) ++ df.filterMap (fun r => r.dst)).toFinset).erase "").filter
    (fun n => (exclude_box && box_re n) = false)

/-- high_R of calc_high_hourly_R_based: DE rows with a high-priority Id and
Status == "R" (only R; D rows are dropped), then with box\d+ destinations
removed (EXCLUDE_BOX_IN_DENOM = True in the script). -/
def high_R (df : List Row) : List Row :=
  (df.filter (fun r => (r.type == "DE") && id_high_match r.id && (r.status == some "R"))).filter
    (fun r => !(box_reO r.dst))

/-- mh_ids of the pandas script: distinct Ids of high_R sorted by natural_key. -/
def mh_ids (df : List Row) : List String :=
  sort_ids_by_natural_key (((high_R df).filterMap (fun r => r.id)).dedup)

/-- BIN_SECONDS constant of the pandas script. -/
def BIN_SECONDS : ℚ := 3600

/-- TOTAL_HOURS constant of the pandas script. -/
def TOTAL_HOURS : ℕ := 12

/-- One record of MH_all_hourly_progression_Rbased.csv.  rate and cum are the
exact values, none marking float("nan") (on which the script's round() call
would raise); n_hour is nunique of the hour's destinations, NOT first-time
only. -/
structure HRow where
  Id : String
  hour_index : ℕ
  N : ℕ
  n_hour : ℕ
  rate : Option ℚ
  cum : Option ℚ
deriving DecidableEq, Repr

/-- The hourly loop of calc_high_hourly_R_based for one id: n_hour counts all
distinct destinations of the bin; seen accumulates all of them. -/
def calcHighLoop (Nv : ℕ) (sub : List Row) (mid : String) :
    ℕ → ℕ → Finset String → List HRow
  | 0, _, _ => []
  | k + 1, h, seen =>
    let slice := sub.filter (fun r => in_bin BIN_SECONDS h r.time)
    let dsts := (slice.map (fun r => r.dst.getD "nan")).toFinset
    let n_hour := dsts.card
    let rate : Option ℚ := if 0 < Nv then some ((n_hour : ℚ) / (Nv : ℚ) * 100) else none
    let seen2 := seen ∪ dsts
    let cum : Option ℚ := if 0 < Nv then some ((seen2.card : ℚ) / (Nv : ℚ) * 100) else none
    ⟨mid, h, Nv, n_hour, rate, cum⟩ :: calcHighLoop Nv sub mid k (h + 1) seen2

/-- calc_high_hourly_R_based: the long-form record list, for the given node
universe (nodes_all is a parameter of the Python function). -/
def calc_high_hourly_R_based (df : List Row) (nodes : Finset String) : List HRow :=
  (mh_ids df).flatMap (fun mid =>
    calcHighLoop nodes.card ((high_R df).filter (fun r => r.id == some mid)) mid TOTAL_HOURS 1 ∅)

/-- CLUSTER_REGEX pattern ^p\d+$ (case-insensitive). -/
def p_re (s : String) : Bool :=
  let cs := lowerChars s.data
  startsWithL cs "p".data && decide (0 < (cs.drop 1).length) &&
    (cs.drop 1).all (fun c => c.isDigit)

/-- CLUSTER_REGEX pattern ^q\d+$ (case-insensitive). -/
def q_re (s : String) : Bool :=
  let cs := lowerChars s.data
  startsWithL cs "q".data && decide (0 < (cs.drop 1).length) &&
    (cs.drop 1).all (fun c => c.isDigit)

/-- CLUSTER_REGEX pattern ^r\d+$ (case-insensitive). -/
def r_re (s : String) : Bool :=
  let cs := lowerChars s.data
  startsWithL cs "r".data && decide (0 < (cs.drop 1).length) &&
    (cs.drop 1).all (fun c => c.isDigit)

/-- CLUSTER_REGEX of the pandas script, in dict insertion order p, q, r. -/
def CLUSTER_REGEX : List (String × (String → Bool)) :=
  [("p", p_re), ("q", q_re), ("r", r_re)]

/-- One record of MH_all_hourly_progression_by_cluster_Rbased.csv; rate and
cum are none for float("nan") (the script leaves cluster NaNs unrounded and
formats them as empty strings in the txt output). -/
structure ClusterRow where
  Id : String
  hour_index : ℕ
  Cluster : String
  N_cluster : ℕ
  n_hour : ℕ
  rate : Option ℚ
  cum : Option ℚ
deriving DecidableEq, Repr

/-- The hourly loop of calc_high_hourly_R_based_by_cluster for one cluster and
one id. -/
def clusterLoop (cname : String) (Nc : ℕ) (sub : List Row) (mid : String) :
    ℕ → ℕ → Finset String → List ClusterRow
  | 0, _, _ => []
  | k + 1, h, seen =>
    let slice := sub.filter (fun r => in_bin BIN_SECONDS h r.time)
    let dsts := (slice.map (fun r => r.dst.getD "nan")).toFinset
    let n_hour := dsts.card
    let rate : Option ℚ := if 0 < Nc then some ((n_hour : ℚ) / (Nc : ℚ) * 100) else none
    let seen2 := seen ∪ dsts
    let cum : Option ℚ := if 0 < Nc then some ((seen2.card : ℚ) / (Nc : ℚ) * 100) else none
    ⟨mid, h, cname, Nc, n_hour, rate, cum⟩ :: clusterLoop cname Nc sub mid k (h + 1) seen2

/-- calc_high_hourly_R_based_by_cluster: for each cluster (p, q, r) the node
universe is the cluster's members, events are restricted to destinations in
the cluster, and rows are emitted for every id and hour even when the cluster
is empty (rates then NaN). -/
def calc_by_cluster (df : List Row) (nodes : Finset String) : List ClusterRow :=
  CLUSTER_REGEX.flatMap (fun c =>
    let cnodes := nodes.filter (fun n => c.2 n = true)
    let subc := (high_R df).filter (fun r => decide (r.dst.getD "nan" ∈ cnodes))
    (mh_ids df).flatMap (fun mid =>
      clusterLoop c.1 cnodes.card (subc.filter (fun r => r.id == some mid)) mid TOTAL_HOURS 1 ∅))

/-- The low-priority row subset of calc_low_arrival_rate_first_delivery. -/
def low (df : List Row) : List Row := df.filter (fun r => id_low_match r.id)

/-- L_total of the pandas script: number of low-priority C rows. -/
def L_total (df : List Row) : ℕ := ((low df).filter (fun r => r.type == "C")).length

/-- delivered_ids of the pandas script: distinct Ids among low-priority DE rows
with Status == "D"; no destination condition of any kind is applied. -/
def delivered_ids (df : List Row) : Finset String :=
  (((low df).filter (fun r => (r.type == "DE") && (r.status == some "D"))).filterMap
    (fun r => r.id)).toFinset

/-- P_total of the pandas script. -/
def P_total (df : List Row) : ℕ := (delivered_ids df).card

/-- arrival_rate_percent of the Low_arrival_rate_summary: P/L*100 when L > 0,
else float("nan"), modelled as none. -/
def arrival_rate (df : List Row) : Option ℚ :=
  if 0 < L_total df then some ((P_total df : ℚ) / (L_total df : ℚ) * 100) else none

end R75

/- ===== Embedding of src/output/sainaosi.py: chunking of the log into hour
files and the per-chunk High / Low calculations. ===== -/

namespace Sai

/-- One row of a chunk CSV written by process_and_save: columns
Time, Type, Host, Tohost, Id, Status (lines with ≥ 6 fields only). -/
structure CRow where
  time : ℚ
  type : String
  host : String
  tohost : String
  id : String
  status : String
deriving DecidableEq, Repr

/-- time_range of sainaosi.py: range(0, 43200, 3600) paired with i+3600,
twelve [start, end) windows. -/
def time_range : List (ℚ × ℚ) :=
  (List.range 12).map (fun i => (((3600 * i : ℕ) : ℚ), ((3600 * i + 3600 : ℕ) : ℚ)))

/-- The grouping condition of process_and_save for one window:
start_time ≤ t < end_time (half-open on the RIGHT, unlike RESULT.py).
The surrounding sort by time does not change which rows are selected. -/
def grouped_data (data : List CRow) (s e : ℚ) : List CRow :=
  data.filter (fun r => decide (s ≤ r.time) && decide (r.time < e))

/-- total_nodes of calculate_high: distinct Host/Tohost values OF ONE CHUNK
FILE, recomputed inside the per-file loop. -/
def total_nodes (data : List CRow) : ℕ :=
  ((data.map (fun r => r.host)) ++ (data.map (fun r => r.tohost))).toFinset.card

/-- One result record of calculate_high (the file path column is omitted;
records are in file order so it is determined by the position). -/
structure SRow where
  target_id : String
  total_nodes : ℕ
  mh_received_nodes : ℕ
  High : ℚ
  cumulative_high : ℚ
deriving DecidableEq, Repr

/-- The per-file loop of calculate_high for one target id: seen_tohosts and
cumulative_high persist across files; total_nodes is recomputed per file. -/
def calculate_high_go (target : String) :
    List (List CRow) → Finset String → ℚ → List SRow
  | [], _, _ => []
  | file :: rest, seen, cum =>
    let tn := total_nodes file
    let dsts := ((file.filter (fun r => (r.id == target) && (r.status == "R"))).map
      (fun r => r.tohost)).toFinset
    let fresh := dsts.filter (fun t => t ∉ seen)
    let mh := fresh.card
    let hi : ℚ := if 0 < tn then (mh : ℚ) / (tn : ℚ) * 100 else 0
    let cum2 := cum + hi
    ⟨target, tn, mh, hi, cum2⟩ :: calculate_high_go target rest (seen ∪ fresh) cum2

/-- calculate_high of sainaosi.py for one target id over the chunk files. -/
def calculate_high_rows (files : List (List CRow)) (target : String) : List SRow :=
  calculate_high_go target files ∅ 0

/-- One result record of calculate_low (file path column omitted). -/
structure LRow where
  ml_created : ℕ
  ml_received : ℕ
  low : ℚ
deriving DecidableEq, Repr

/-- The per-file loop of calculate_low: for each Tohost of a low-priority
D row not seen before, seen_tohosts grows and ml_received increases BY 2;
ml_created counts every low-priority row of the file.  The Id filter is
str.startswith('M_L'), case-sensitive. -/
def calculate_low_go : List (List CRow) → Finset String → List LRow
  | [], _ => []
  | file :: rest, seen =>
    let ml_data := file.filter (fun r => startsWithL r.id.data "M_L".data)
    let ml_created := ml_data.length
    let fresh := ((ml_data.filter (fun r => r.status == "D")).map
      (fun r => r.tohost)).toFinset.filter (fun t => t ∉ seen)
    let ml_received := 2 * fresh.card
    let lo : ℚ := if 0 < ml_created then (ml_received : ℚ) / (ml_created : ℚ) * 100 else 0
    ⟨ml_created, ml_received, lo⟩ :: calculate_low_go rest (seen ∪ fresh)

/-- calculate_low of sainaosi.py over the chunk files. -/
def calculate_low_rows (files : List (List CRow)) : List LRow :=
  calculate_low_go files ∅

end Sai

/- ===== Concrete inputs used by witnesses and counterexamples. ===== -/

/-- A single high-priority R event at t=100 to destination a (first script). -/
def eW : R81.Event := ⟨100, "R", some "s", some "a", some "M_H1"⟩

/-- A one-event list containing eW. -/
def revsW : List R81.Event := [eW]

/-- An hour-1 row of the degenerate N = 0 aggregation. -/
def rowW4 : R81.HRow := ⟨"M_H1", 1, 0, 0, 0, 0⟩

/-- Event list for the first script: one R delivery of M_H1 to a at t=100. -/
def eventsC3 : List R81.Event := [⟨100, "R", some "s", some "a", some "M_H1"⟩]

/-- A D event of a low-priority id whose destination is an excluded box node. -/
def eventsW10 : List R81.Event := [⟨100, "D", some "s", some "box1", some "M_L1"⟩]

/-- The same delivery as a pandas DataFrame row. -/
def dfW10 : List R75.Row := [⟨100, "DE", some "s", some "box1", some "M_L1", some "D"⟩]

/-- Two R deliveries of M_H1 to the SAME destination a in hour 1 and hour 2. -/
def dfC1 : List R75.Row :=
  [⟨100, "DE", some "s", some "a", some "M_H1", some "R"⟩,
   ⟨3700, "DE", some "s2", some "a", some "M_H1", some "R"⟩]

/-- A DeliverDelivered (DE ... D) event of a high-priority id to a
non-excluded destination. -/
def dfC2 : List R75.Row := [⟨100, "DE", some "s", some "a", some "M_H1", some "D"⟩]

/-- One high-priority R delivery to q1; no node matches cluster pattern p. -/
def dfC4 : List R75.Row := [⟨100, "DE", some "s", some "q1", some "M_H1", some "R"⟩]

/-- A float(...) model for the parser inputs used in concrete lines. -/
def pfC : String → Option ℚ := fun s => if s == "10.0" then some 10 else none

/-- Two chunk files whose node sets differ: {s,a} then {s,b,c}. -/
def filesC3 : List (List Sai.CRow) :=
  [[⟨100, "DE", "s", "a", "M_Hp1", "R"⟩],
   [⟨3700, "DE", "s", "b", "M_Hp1", "R"⟩, ⟨3701, "DE", "b", "c", "M_Hp1", "R"⟩]]

/-- One chunk file with a single low-priority message delivered once. -/
def filesC6 : List (List Sai.CRow) := [[⟨100, "DE", "s", "a", "M_L1", "D"⟩]]

/-- A row exactly on the hour boundary t = 3600. -/
def rowT : Sai.CRow := ⟨3600, "DE", "s", "a", "M_H1", "R"⟩

/- ===== Helper lemmas. ===== -/

/-- The already-seen set of an id is monotone in the number of processed bins. -/
theorem already_mono (revs : List R81.Event) (mid : String) {a b : ℕ} (hab : a ≤ b) :
    R81.already_seen_nodes revs mid a ⊆ R81.already_seen_nodes revs mid b := by
  induction hab with
  | refl => exact Finset.Subset.refl _
  | step _ ih => exact ih.trans Finset.subset_union_left

/-- Every receiver of bin h+1 is in the already-seen set after bin h+1. -/
theorem hr_subset_already (revs : List R81.Event) (mid : String) (h : ℕ) :
    R81.hour_receivers mid revs (h + 1) ⊆ R81.already_seen_nodes revs mid (h + 1) := by
  intro x hx
  rw [R81.already_seen_nodes]
  by_cases hmem : x ∈ R81.already_seen_nodes revs mid h
  · exact Finset.mem_union_left _ hmem
  · exact Finset.mem_union_right _ (Finset.mem_filter.2 ⟨hx, hmem⟩)

/-- A first-time node of bin h (h ≥ 1) is already seen after bin h. -/
theorem mem_already_of_first_time (revs : List R81.Event) (mid : String) (h : ℕ)
    (h1 : 1 ≤ h) {x : Option String} (hx : x ∈ R81.first_time_nodes revs mid h) :
    x ∈ R81.already_seen_nodes revs mid h := by
  obtain ⟨k, rfl⟩ : ∃ k, h = k + 1 := ⟨h - 1, by omega⟩
  exact hr_subset_already revs mid k (Finset.mem_filter.1 hx).1

/-- Loop invariant of the hourly while-loop of RESULT.py: started at bin h0+1
with the already-seen set of the first h0 bins, each produced row carries Nv,
a bin index ≥ 1, the first-time count of its bin, and the two rates computed
from that count and the accumulated already-seen set. -/
theorem highLoop_invariant (Nv : ℕ) (revs : List R81.Event) (mid : String) :
    ∀ (k h0 : ℕ) (row : R81.HRow),
      row ∈ R81.highLoop Nv revs mid k (h0 + 1) (R81.already_seen_nodes revs mid h0) →
      row.N = Nv ∧ 1 ≤ row.hour_index ∧
      row.n_hour = (R81.first_time_nodes revs mid row.hour_index).card ∧
      row.rate_hour = (if 0 < Nv then (row.n_hour : ℚ) / (Nv : ℚ) * 100 else 0) ∧
      row.cum_rate = (if 0 < Nv then
        ((R81.already_seen_nodes revs mid row.hour_index).card : ℚ) / (Nv : ℚ) * 100 else 0) := by
  intro k
  induction k with
  | zero => intro h0 row hrow; simp [R81.highLoop] at hrow
  | succ k ih =>
    intro h0 row hrow
    simp only [R81.highLoop, List.mem_cons] at hrow
    rcases hrow with hrow | hrow
    · subst hrow
      exact ⟨rfl, Nat.le_add_left 1 h0, rfl, rfl, rfl⟩
    · exact ih (h0 + 1) row hrow

/-- Positional form of the loop invariant: the i-th row produced by the loop
started at bin h0+1 is the row of bin h0+i+1 and counts that bin's first-time
receivers.  (Only the discrete columns are projected.) -/
theorem highLoop_get (Nv : ℕ) (revs : List R81.Event) (mid : String) :
    ∀ (k h0 i : ℕ), i < k →
      ((R81.highLoop Nv revs mid k (h0 + 1) (R81.already_seen_nodes revs mid h0)).get? i).map
          (fun row => (row.N, row.hour_index, row.n_hour)) =
        some (Nv, h0 + i + 1, (R81.first_time_nodes revs mid (h0 + i + 1)).card) := by
  intro k
  induction k with
  | zero => intro h0 i hi; exact absurd hi (Nat.not_lt_zero i)
  | succ k ih =>
    intro h0 i hi
    match i with
    | 0 =>
      simp only [R81.highLoop, List.get?_cons_zero, Option.map_some']
      rfl
    | i + 1 =>
      have h := ih (h0 + 1) i (by omega)
      have harr : h0 + 1 + i + 1 = h0 + (i + 1) + 1 := by omega
      rw [harr] at h
      simpa only [R81.highLoop, List.get?_cons_succ] using h

/-- A destination of an event of the list is in nodes_all. -/
theorem mem_nodes_all_of_dst {events : List R81.Event} {e : R81.Event} {d : String}
    (he : e ∈ events) (hd : e.dst = some d) : d ∈ R81.nodes_all events := by
  simp only [R81.nodes_all, List.mem_toFinset, List.mem_append, List.mem_filterMap]
  exact Or.inr ⟨e, he, hd⟩

/-- Membership in the exclusion-filtered node universe of the first script. -/
theorem mem_filtered_nodes {events : List R81.Event} {d : String} :
    d ∈ R81.filtered_nodes true true events ↔
      d ∈ R81.nodes_all events ∧ R81.is_box (some d) = false ∧ R81.is_do (some d) = false := by
  simp [R81.filtered_nodes, Finset.mem_filter, Bool.or_eq_false_iff, Bool.true_and]

/-- Cross-multiplication for a strict comparison of integer fractions. -/
theorem div_lt_div_int (a c : ℤ) (b d : ℕ) (hb : 0 < b) (hd : 0 < d) :
    (a : ℚ) / (b : ℚ) < (c : ℚ) / (d : ℚ) ↔ a * (d : ℤ) < c * (b : ℤ) := by
  rw [div_lt_div_iff₀ (by exact_mod_cast hb) (by exact_mod_cast hd)]
  constructor <;> intro h <;> exact_mod_cast h

/-- Cross-multiplication for a non-strict comparison of integer fractions. -/
theorem div_le_div_int (a c : ℤ) (b d : ℕ) (hb : 0 < b) (hd : 0 < d) :
    (a : ℚ) / (b : ℚ) ≤ (c : ℚ) / (d : ℚ) ↔ a * (d : ℤ) ≤ c * (b : ℤ) := by
  rw [div_le_div_iff₀ (by exact_mod_cast hb) (by exact_mod_cast hd)]
  constructor <;> intro h <;> exact_mod_cast h

/-- An integer multiple of a fraction below another fraction, cross-multiplied. -/
theorem int_mul_div_lt (k a c : ℤ) (b d : ℕ) (hb : 0 < b) (hd : 0 < d) :
    (k : ℚ) * ((a : ℚ) / (b : ℚ)) < (c : ℚ) / (d : ℚ) ↔ k * a * (d : ℤ) < c * (b : ℤ) := by
  rw [← mul_div_assoc, ← Int.cast_mul, div_lt_div_int _ _ _ _ hb hd]

/-- A fraction below an integer multiple of a fraction, cross-multiplied. -/
theorem div_le_int_mul (k a c : ℤ) (b d : ℕ) (hb : 0 < b) (hd : 0 < d) :
    (c : ℚ) / (d : ℚ) ≤ (k : ℚ) * ((a : ℚ) / (b : ℚ)) ↔ c * (b : ℤ) ≤ k * a * (d : ℤ) := by
  rw [← mul_div_assoc, ← Int.cast_mul, div_le_div_int _ _ _ _ hd hb]

/-- The executable bin test coincides with the source's rational condition
(h-1)*W < t ≤ h*W. -/
theorem in_bin_iff (W : ℚ) (h : ℕ) (t : ℚ) :
    in_bin W h t = true ↔ ((h : ℚ) - 1) * W < t ∧ t ≤ (h : ℚ) * W := by
  obtain ⟨a, b, hb, ha2, hb2, hW⟩ :
      ∃ (a : ℤ) (b : ℕ), 0 < b ∧ a = W.num ∧ b = W.den ∧ (a : ℚ) / (b : ℚ) = W :=
    ⟨W.num, W.den, W.pos, rfl, rfl, Rat.num_div_den W⟩
  obtain ⟨c, d, hd, hc2, hd2, hT⟩ :
      ∃ (c : ℤ) (d : ℕ), 0 < d ∧ c = t.num ∧ d = t.den ∧ (c : ℚ) / (d : ℚ) = t :=
    ⟨t.num, t.den, t.pos, rfl, rfl, Rat.num_div_den t⟩
  simp only [in_bin, Bool.and_eq_true, decide_eq_true_eq]
  rw [← ha2, ← hb2, ← hc2, ← hd2, ← hW, ← hT]
  have hk1 : ((h : ℚ) - 1) = (((h : ℤ) - 1 : ℤ) : ℚ) := by push_cast; ring
  have hk2 : (h : ℚ) = ((h : ℤ) : ℚ) := by push_cast; ring
  rw [hk1, hk2, int_mul_div_lt _ _ _ _ _ hb hd, div_le_int_mul _ _ _ _ _ hb hd]

/- ===== Claim theorems. ===== -/

/-- C1 (amended): in the first script's hourly aggregator every emitted row's
count n_hour is the number of first-time receivers of its bin (receivers of
the bin minus the already-seen set accumulated over the earlier bins), the
already-seen set never shrinks across bins, and a node is a first-time node of
at most one bin per message id.  (The claim as frozen also covers
calc_high_hourly_R_based, where it fails: see the counterexample.) -/
theorem c1_hourly_first_time (Nv : ℕ) (revs : List R81.Event) (mid : String) :
    (∀ i : ℕ, i < R81.TOTAL_HOURS →
        ((R81.highRowsFor Nv revs mid).get? i).map
            (fun row => (row.N, row.hour_index, row.n_hour)) =
          some (Nv, i + 1, (R81.first_time_nodes revs mid (i + 1)).card)) ∧
    (∀ h : ℕ, R81.already_seen_nodes revs mid h ⊆ R81.already_seen_nodes revs mid (h + 1)) ∧
    (∀ (node : Option String) (h1 h2 : ℕ), 1 ≤ h1 → 1 ≤ h2 →
        node ∈ R81.first_time_nodes revs mid h1 →
        node ∈ R81.first_time_nodes revs mid h2 → h1 = h2) := by
  refine ⟨?_, ?_, ?_⟩
  · intro i hi
    have h := highLoop_get Nv revs mid R81.TOTAL_HOURS 0 i hi
    have hz : 0 + i + 1 = i + 1 := by omega
    rw [hz] at h
    exact h
  · intro h
    exact already_mono revs mid (Nat.le_succ h)
  · intro node h1 h2 hh1 hh2 hm1 hm2
    by_contra hne
    rcases Nat.lt_or_ge h1 h2 with hlt | hge
    · have hmem : node ∈ R81.already_seen_nodes revs mid (h2 - 1) :=
        already_mono revs mid (by omega) (mem_already_of_first_time revs mid h1 hh1 hm1)
      exact (Finset.mem_filter.1 hm2).2 hmem
    · have hlt2 : h2 < h1 := by omega
      have hmem : node ∈ R81.already_seen_nodes revs mid (h1 - 1) :=
        already_mono revs mid (by omega) (mem_already_of_first_time revs mid h2 hh2 hm2)
      exact (Finset.mem_filter.1 hm1).2 hmem

/-- C1 witness: the hour-1 row of the one-event run revsW counts exactly the
first-time receivers of bin 1 (and that count is 1). -/
theorem c1_witness :
    ((R81.highRowsFor 1 revsW "M_H1").get? 0).map
        (fun row => (row.N, row.hour_index, row.n_hour)) =
      some (1, 1, (R81.first_time_nodes revsW "M_H1" 1).card) ∧
    (R81.first_time_nodes revsW "M_H1" 1).card = 1 :=
  ⟨(c1_hourly_first_time 1 revsW "M_H1").1 0 (by decide), by decide⟩

/-- C1 counterexample: in calc_high_hourly_R_based of the pandas script the
same destination a (already reached in hour 1) is counted AGAIN in the hour-2
row (n_hour = 1 instead of the claimed 0, the hour's receivers all being in
the reached set already), so a node contributes to the emitted per-hour
receiver count in more than one hour there. -/
theorem c1_cex :
    ((R75.calc_high_hourly_R_based dfC1 (R75.compute_denominator_nodes true dfC1)).get? 0).map
        (fun r => (r.Id, r.hour_index, r.N, r.n_hour)) = some ("M_H1", 1, 3, 1) ∧
    ((R75.calc_high_hourly_R_based dfC1 (R75.compute_denominator_nodes true dfC1)).get? 1).map
        (fun r => (r.Id, r.hour_index, r.N, r.n_hour)) = some ("M_H1", 2, 3, 1) := by decide

/-- C2 (amended): in the first script an event of the list with destination d
is a counted receipt iff it is an R or D event with a high-priority id and d
is in the active (exclusion-filtered) node universe — both statuses count; in
the pandas calc_high_hourly_R_based every counted row instead has status R
only (DeliverDelivered rows are dropped there: see the counterexample). -/
theorem c2_receipt_characterization :
    (∀ (events : List R81.Event) (e : R81.Event) (d : String), e ∈ events → e.dst = some d →
        (e ∈ R81.rd_events_high true true events ↔
          ((e.type = "R" ∨ e.type = "D") ∧ R81.is_high_id e.id = true ∧
            d ∈ R81.filtered_nodes true true events))) ∧
    (∀ (df : List R75.Row) (r : R75.Row), r ∈ R75.high_R df → r.status = some "R") := by
  constructor
  · intro events e d he hd
    rw [mem_filtered_nodes]
    constructor
    · intro hmem
      rw [R81.rd_events_high, List.mem_filter] at hmem
      obtain ⟨-, hp⟩ := hmem
      simp only [Bool.and_eq_true, Bool.or_eq_true, beq_iff_eq, Bool.not_eq_true',
        Bool.true_and] at hp
      obtain ⟨⟨⟨hty, hhigh⟩, hbox⟩, hdo⟩ := hp
      rw [hd] at hbox hdo
      exact ⟨hty, hhigh, mem_nodes_all_of_dst he hd, hbox, hdo⟩
    · rintro ⟨hty, hhigh, -, hbox, hdo⟩
      rw [R81.rd_events_high, List.mem_filter]
      refine ⟨he, ?_⟩
      simp only [Bool.and_eq_true, Bool.or_eq_true, beq_iff_eq, Bool.not_eq_true',
        Bool.true_and, hd]
      exact ⟨⟨⟨hty, hhigh⟩, hbox⟩, hdo⟩
  · intro df r hr
    rw [R75.high_R, List.mem_filter] at hr
    obtain ⟨hr1, -⟩ := hr
    rw [List.mem_filter] at hr1
    have hp := hr1.2
    simp only [Bool.and_eq_true, beq_iff_eq] at hp
    exact hp.2

/-- C2 witness: the concrete R event eW with destination a instantiates the
receipt characterization. -/
theorem c2_witness :
    eW ∈ R81.rd_events_high true true revsW ↔
      ((eW.type = "R" ∨ eW.type = "D") ∧ R81.is_high_id eW.id = true ∧
        "a" ∈ R81.filtered_nodes true true revsW) :=
  c2_receipt_characterization.1 revsW eW "a" (by decide) rfl

/-- C2 counterexample: a DeliverDelivered event (DE ... D) with a
high-priority id and a universe-member destination is NOT counted by the
pandas high-priority filter high_R — only status R counts there, refuting
"both R and D statuses count" for calc_high_hourly_R_based. -/
theorem c2_cex : R75.high_R dfC2 = [] ∧ R75.id_high_match (some "M_H1") = true ∧
    "a" ∈ R75.compute_denominator_nodes true dfC2 ∧
    dfC2.head?.map (fun r => r.status) = some (some "D") := by decide

/-- C3 (amended): in RESULT.py the denominator N is computed once from the
full event list before aggregation, and every row emitted by the hourly
aggregation carries that same N.  (In sainaosi.py's calculate_high the
denominator is recomputed per chunk file: see the counterexample.) -/
theorem c3_fixed_N (events : List R81.Event) (i : ℕ)
    (hi : i < (R81.highRows events).length) :
    ((R81.highRows events).get? i).map (fun row => row.N) = some (R81.N events) := by
  rw [List.get?_eq_get hi]
  have hmem : (R81.highRows events).get ⟨i, hi⟩ ∈ R81.highRows events :=
    List.get_mem _ _ _
  obtain ⟨mid, -, hrow⟩ := List.mem_flatMap.1 hmem
  exact congrArg some
    (highLoop_invariant (R81.N events) (R81.rd_events_high true true events) mid
      R81.TOTAL_HOURS 0 _ hrow).1

/-- C3 witness: the first row of the run eventsC3 carries N eventsC3. -/
theorem c3_witness :
    0 < (R81.highRows eventsC3).length ∧
    ((R81.highRows eventsC3).get? 0).map (fun row => row.N) = some (R81.N eventsC3) :=
  ⟨by decide, c3_fixed_N eventsC3 0 (by decide)⟩

/-- C3 counterexample: sainaosi.py's calculate_high recomputes total_nodes
from each chunk file, so the two rows of the same run carry different
denominators (2, then 3) — N is not fixed across hour bins there. -/
theorem c3_cex :
    ((Sai.calculate_high_rows filesC3 "M_Hp1").map (fun r => r.total_nodes)) = [2, 3] ∧
    ¬ (∀ r1 ∈ Sai.calculate_high_rows filesC3 "M_Hp1",
        ∀ r2 ∈ Sai.calculate_high_rows filesC3 "M_Hp1",
          r1.total_nodes = r2.total_nodes) := by decide

/-- C4 (amended): in the first script's aggregator every row emitted for an
empty node universe (N = 0) carries hourly and cumulative rates exactly 0.
(The pandas aggregators mark this case NaN instead: see the counterexample.) -/
theorem c4_zero_N_rates (revs : List R81.Event) (mid : String) (row : R81.HRow)
    (hrow : row ∈ R81.highRowsFor 0 revs mid) :
    row.rate_hour = 0 ∧ row.cum_rate = 0 := by
  have h := highLoop_invariant 0 revs mid R81.TOTAL_HOURS 0 row hrow
  constructor
  · rw [h.2.2.2.1]; simp
  · rw [h.2.2.2.2]; simp

/-- C4 witness: a concrete row of the N = 0 aggregation has both rates 0. -/
theorem c4_witness :
    rowW4 ∈ R81.highRowsFor 0 ([] : List R81.Event) "M_H1" ∧
    rowW4.rate_hour = 0 ∧ rowW4.cum_rate = 0 :=
  ⟨by decide, c4_zero_N_rates [] "M_H1" rowW4 (by decide)⟩

/-- C4 counterexample: calc_high_hourly_R_based_by_cluster emits, for cluster
p whose node universe is empty (N_cluster = 0), rows whose rates are
float("nan") (modelled none) — not the number 0 the claim requires. -/
theorem c4_cex :
    (R75.calc_by_cluster dfC4 (R75.compute_denominator_nodes true dfC4)).get? 0 =
      some ⟨"M_H1", 1, "p", 0, 0, none, none⟩ := by decide

/-- C5 (amended): calc_low_arrival_rate_first_delivery of the pandas script
marks the aggregate arrival rate NaN (none) when the created count L is 0.
(The first script instead reports the number 0.0: see the counterexample.) -/
theorem c5_low_L_zero_nan (df : List R75.Row) (hL : R75.L_total df = 0) :
    R75.arrival_rate df = none := by
  rw [R75.arrival_rate, hL]
  simp

/-- C5 witness: the empty log has L = 0 and a NaN-marked aggregate rate. -/
theorem c5_witness :
    R75.L_total ([] : List R75.Row) = 0 ∧ R75.arrival_rate ([] : List R75.Row) = none :=
  ⟨rfl, c5_low_L_zero_nan [] rfl⟩

/-- C5 counterexample: the first script's ML summary row for a log with L = 0
is (0, 0, 0.0) — the rate is reported as the plain number 0, with no NaN or
undefined marking anywhere in that script. -/
theorem c5_cex : R81.low_summary ([] : List R81.Event) = (0, 0, 0) := by decide

/-- C6: evaluating sainaosi.py's calculate_low at the failing input (a single
chunk file whose one line is a single delivery of the low-priority message
M_L1): the emitted record has M_L Created = 1 but M_L Received = 2, because
the code adds 2 per newly seen destination — one delivery of one message
contributes 2, not the claimed 1. -/
theorem c6_calculate_low_eval :
    (Sai.calculate_low_rows filesC6).map (fun r => (r.ml_created, r.ml_received)) =
      [(1, 2)] := by decide

/-- C7 (amended): for a line whose first token parses as a number,
parse_eventlogreport (pandas script) emits a Send row for an S line with ≥ 5
fields and a Connection row for a CONN line with ≥ 5 fields, while the first
script's parser emits nothing for either shape (it recognizes only C and DE
lines). -/
theorem c7_parse_shapes (pf : String → Option ℚ) (t : ℚ) (p0 p2 p3 p4 : String)
    (rest : List String) (hpf : pf p0 = some t) :
    (R75.parse_line pf (p0 :: "S" :: p2 :: p3 :: p4 :: rest) =
        some ⟨t, "S", some p2, some p3, some p4, none⟩ ∧
      R81.parse_line pf (p0 :: "S" :: p2 :: p3 :: p4 :: rest) = none) ∧
    (R75.parse_line pf (p0 :: "CONN" :: p2 :: p3 :: p4 :: rest) =
        some ⟨t, "CONN", some p2, some p3, none, some p4⟩ ∧
      R81.parse_line pf (p0 :: "CONN" :: p2 :: p3 :: p4 :: rest) = none) := by
  refine ⟨⟨?_, ?_⟩, ⟨?_, ?_⟩⟩ <;>
    simp [R75.parse_line, R81.parse_line, hpf, List.get?, Nat.le_add_left]

/-- C7 witness: concrete S and CONN lines. -/
theorem c7_witness :
    R75.parse_line pfC ["10.0", "S", "a", "b", "m1"] =
        some ⟨10, "S", some "a", some "b", some "m1", none⟩ ∧
    R81.parse_line pfC ["10.0", "S", "a", "b", "m1"] = none ∧
    R75.parse_line pfC ["10.0", "CONN", "a", "b", "up"] =
        some ⟨10, "CONN", some "a", some "b", none, some "up"⟩ :=
  ⟨(c7_parse_shapes pfC 10 "10.0" "a" "b" "m1" [] (by decide)).1.1,
   (c7_parse_shapes pfC 10 "10.0" "a" "b" "m1" [] (by decide)).1.2,
   (c7_parse_shapes pfC 10 "10.0" "a" "b" "up" [] (by decide)).2.1⟩

/-- C7 counterexample: the claim says such lines are recognized by the
parser, but the first script's log-reading loop silently skips well-formed S
and CONN lines (its recognized shapes are only C and DE). -/
theorem c7_cex :
    R81.parse_line pfC ["10.0", "S", "a", "b", "m1"] = none ∧
    R81.parse_line pfC ["10.0", "CONN", "a", "b", "up"] = none ∧
    pfC "10.0" = some 10 := by decide

/-- C8 (amended): RESULT.py's hourly loops select into bin h exactly the
events of the id with (h-1)*W < time ≤ h*W, and these bins are pairwise
disjoint (a time lies in at most one bin).  (sainaosi.py's chunking instead
uses [start, end): see the counterexample.) -/
theorem c8_bin_selection :
    (∀ (revs : List R81.Event) (mid : String) (h : ℕ) (e : R81.Event),
        e ∈ R81.hour_slice mid revs h ↔
          (e ∈ revs ∧ e.id = some mid ∧
            ((h : ℚ) - 1) * R81.BIN_SECONDS < e.time ∧
              e.time ≤ (h : ℚ) * R81.BIN_SECONDS)) ∧
    (∀ (W : ℚ), 0 < W → ∀ (t : ℚ) (h1 h2 : ℕ),
        in_bin W h1 t = true → in_bin W h2 t = true → h1 = h2) := by
  constructor
  · intro revs mid h e
    rw [R81.hour_slice, List.mem_filter]
    simp only [Bool.and_eq_true, beq_iff_eq]
    rw [in_bin_iff]
  · intro W hW t h1 h2 hb1 hb2
    rw [in_bin_iff] at hb1 hb2
    have m1 : (h1 : ℚ) - 1 < (h2 : ℚ) :=
      lt_of_mul_lt_mul_right (lt_of_lt_of_le hb1.1 hb2.2) (le_of_lt hW)
    have m2 : (h2 : ℚ) - 1 < (h1 : ℚ) :=
      lt_of_mul_lt_mul_right (lt_of_lt_of_le hb2.1 hb1.2) (le_of_lt hW)
    have n1 : h1 < h2 + 1 := by exact_mod_cast (by linarith : (h1 : ℚ) < (h2 : ℚ) + 1)
    have n2 : h2 < h1 + 1 := by exact_mod_cast (by linarith : (h2 : ℚ) < (h1 : ℚ) + 1)
    omega

/-- C8 witness: bin membership of eW at bin 1 and disjointness at t = 1800. -/
theorem c8_witness :
    (1 : ℕ) = 1 ∧
    (eW ∈ R81.hour_slice "M_H1" revsW 1 ↔
      (eW ∈ revsW ∧ eW.id = some "M_H1" ∧
        (((1 : ℕ) : ℚ) - 1) * R81.BIN_SECONDS < eW.time ∧
          eW.time ≤ ((1 : ℕ) : ℚ) * R81.BIN_SECONDS)) :=
  ⟨c8_bin_selection.2 3600 (by norm_num) 1800 1 1 (by decide) (by decide),
   c8_bin_selection.1 revsW "M_H1" 1 eW⟩

/-- C8 counterexample: sainaosi.py's process_and_save groups by
start ≤ t < end, so the boundary time t = 3600 — which the claimed rule
(h-1)*W < t ≤ h*W puts in bin 1 — is excluded from chunk 1 and lands in
chunk 2 there. -/
theorem c8_cex :
    Sai.grouped_data [rowT] 0 3600 = [] ∧
    Sai.grouped_data [rowT] 3600 7200 = [rowT] ∧
    in_bin 3600 1 rowT.time = true ∧
    Sai.time_range.head? = some (0, 3600) := by decide

/-- C9 (amended): the pandas script's natural_key is the claimed triple
(head, trailing-number value, original string) with -1 when there is no
trailing digit run, and both scripts sort ["m1","m2","m10"] into natural
order; the first script's sort_key, however, is only the PAIR (head, number)
with no original-string tie-break (see the counterexample). -/
theorem c9_natural_order :
    R81.natural_sort_ids ["m1", "m2", "m10"] = ["m1", "m2", "m10"] ∧
    R75.sort_ids_by_natural_key ["m1", "m2", "m10"] = ["m1", "m2", "m10"] ∧
    R75.natural_key "m" = ("m", -1, "m") ∧
    R75.natural_key "m10" = ("m", 10, "m10") ∧
    R81.sort_key "m10" = ("m", 10) ∧ R81.sort_key "m" = ("m", -1) := by decide

/-- C9 counterexample: sort_key of the first script has no original-string
component — "m1" and "m01" get the identical key ("m", 1) — so
natural_sort_ids leaves ["m1", "m01"] in input order where the claimed
triple key (used by natural_key) reorders it to ["m01", "m1"]. -/
theorem c9_cex :
    R81.sort_key "m1" = ("m", 1) ∧ R81.sort_key "m01" = ("m", 1) ∧
    R81.natural_sort_ids ["m1", "m01"] = ["m1", "m01"] ∧
    R75.sort_ids_by_natural_key ["m1", "m01"] = ["m01", "m1"] := by decide

/-- C10: low-priority counting ignores node exclusion in both scripts: a
DeliverDelivered event of a low-priority id is added to the delivered set
even when its destination is an excluded box*/do* infrastructure node (the
low-priority counters apply no destination condition at all, and take no
exclusion flags). -/
theorem c10_low_ignores_exclusion :
    (∀ (events : List R81.Event) (e : R81.Event), e ∈ events → e.type = "D" →
        R81.is_low_id e.id = true → (R81.is_box e.dst || R81.is_do e.dst) = true →
        e.id ∈ R81.delivered_once_ids events) ∧
    (∀ (df : List R75.Row) (r : R75.Row) (m : String), r ∈ df → r.type = "DE" →
        r.status = some "D" → R75.id_low_match r.id = true → r.id = some m →
        R75.box_reO r.dst = true → m ∈ R75.delivered_ids df) := by
  constructor
  · intro events e he hty hlow hexc
    simp only [R81.delivered_once_ids, List.mem_toFinset, List.mem_map]
    exact ⟨e, List.mem_filter.2 ⟨he, by simp [hty, hlow]⟩, rfl⟩
  · intro df r m hr hty hst hlow hid hbox
    simp only [R75.delivered_ids, List.mem_toFinset, List.mem_filterMap]
    refine ⟨r, ?_, hid⟩
    refine List.mem_filter.2 ⟨?_, by simp [hty, hst]⟩
    exact List.mem_filter.2 ⟨hr, hlow⟩

/-- C10 witness: a low-priority delivery to the excluded node box1 still
counts in both delivered-id sets. -/
theorem c10_witness :
    (some "M_L1" : Option String) ∈ R81.delivered_once_ids eventsW10 ∧
    "M_L1" ∈ R75.delivered_ids dfW10 :=
  ⟨c10_low_ignores_exclusion.1 eventsW10 ⟨100, "D", some "s", some "box1", some "M_L1"⟩
      (by decide) rfl (by decide) (by decide),
   c10_low_ignores_exclusion.2 dfW10 ⟨100, "DE", some "s", some "box1", some "M_L1", some "D"⟩
      "M_L1" (by decide) rfl rfl (by decide) rfl (by decide)⟩
